import Mathlib

/-!
Shallow embedding of the my-shop-backend request handlers.

The embedding follows the JavaScript source:
  - src/routes/products.js   (product listing, creation, update, deletion)
  - src/models/Product.js    (the Mongoose product schema used on save)
  - src/middleware/isAdmin.js (the admin gate)
  - src/unnamed/part_000     (the cart router: add, remove, update, clear)

Modelling conventions:
  - Request-body values are modelled by `JVal`: undefined, string, integer
    number or boolean.  JavaScript numbers are modelled as integers (every
    number the spec and claims mention is integral); NaN is modelled as
    `none` in `Option Int`, which propagates through arithmetic and makes
    every `<` comparison false, as in JavaScript.
  - Documents live in in-memory lists; object ids are naturals.  The
    `createdAt` timestamp is modelled by the monotone id counter, so a
    larger `createdAt` means a more recently created document.
  - Mongoose save-time schema validation (src/models/Product.js) is the
    boolean `schemaOk`; a record that fails it makes the handler surface a
    server error and leave the store unchanged, as a Mongoose
    ValidationError would.
-/

namespace MyShop

/-- A JSON request-body value: absent (undefined), string, integral number,
or boolean.  `null` does not occur in any request the spec describes. -/
inductive JVal where
  | undef
  | jstr (s : String)
  | jnum (n : Int)
  | jbool (b : Bool)
deriving DecidableEq

/-- JavaScript truthiness of a body value. -/
def JVal.truthy : JVal → Bool
  | .undef => false
  | .jstr s => s != ""
  | .jnum n => n != 0
  | .jbool b => b

/-- Whitespace for the purposes of JavaScript string trimming. -/
def isSpaceChar (c : Char) : Bool :=
  c == ' ' || c == '\t' || c == '\n' || c == '\r'

/-- Trim leading and trailing whitespace from a character list. -/
def trimChars (l : List Char) : List Char :=
  ((l.dropWhile isSpaceChar).reverse.dropWhile isSpaceChar).reverse

/-- Trim a string (the Mongoose `trim: true` setter on the product name). -/
def trimStr (s : String) : String :=
  String.mk (trimChars s.data)

/-- Accumulate a run of decimal digits; `none` when a non-digit appears. -/
def digitsToNat : List Char → Nat → Option Nat
  | [], acc => some acc
  | c :: rest, acc =>
      if c.isDigit then digitsToNat rest (acc * 10 + (c.toNat - 48)) else none

/-- JavaScript `Number(...)` on an already-trimmed character list, for the
integral numerals the system deals in: the empty string is 0, an optional
sign is followed by decimal digits, anything else is NaN (`none`). -/
def numCharsToInt : List Char → Option Int
  | [] => some 0
  | '-' :: rest =>
      if rest = [] then none else (digitsToNat rest 0).map (fun n => -(n : Int))
  | '+' :: rest =>
      if rest = [] then none else (digitsToNat rest 0).map (fun n => (n : Int))
  | cs => (digitsToNat cs 0).map (fun n => (n : Int))

/-- JavaScript `Number(...)` on a string: trim, then parse; NaN is `none`. -/
def strToNum (s : String) : Option Int :=
  numCharsToInt (trimChars s.data)

/-- JavaScript `Number(...)` on a body value (`Number(undefined)` is NaN). -/
def JVal.toNumber : JVal → Option Int
  | .undef => none
  | .jstr s => strToNum s
  | .jnum n => some n
  | .jbool b => some (if b then 1 else 0)

/-- JavaScript string conversion of a body value. -/
def JVal.toStr : JVal → String
  | .undef => "undefined"
  | .jstr s => s
  | .jnum n => toString n
  | .jbool b => if b then "true" else "false"

/-- JavaScript `<` on numbers-or-NaN: any comparison with NaN is false. -/
def jlt : Option Int → Option Int → Bool
  | some a, some b => decide (a < b)
  | _, _ => false

/-- Addition on numbers-or-NaN: NaN propagates. -/
def jadd : Option Int → Option Int → Option Int
  | some a, some b => some (a + b)
  | _, _ => none

/-- A stored product document (src/models/Product.js). -/
structure Product where
  id : Nat
  name : String
  description : String
  price : Int
  category : String
  stock : Int
  image : String
  featured : Bool
  createdAt : Nat
deriving DecidableEq

/-- A cart line item: product reference plus quantity (quantity is
`Option Int` so that a NaN written by a degenerate request is representable,
as in the JavaScript). -/
structure CartItem where
  product : Nat
  quantity : Option Int
deriving DecidableEq

/-- A cart document: owning user and the ordered line-item sequence.
Modelled from the spec for the Cart schema file absent from src/: one cart
per user, holding an ordered sequence of line items. -/
structure Cart where
  user : Nat
  items : List CartItem
deriving DecidableEq

/-- The persistent state: the two collections and the id counter used to
mint fresh product ids (which also serve as creation timestamps). -/
structure DB where
  products : List Product
  nextId : Nat
  carts : List Cart
deriving DecidableEq

/-- `Product.findById`. -/
def findProduct (db : DB) (pid : Nat) : Option Product :=
  db.products.find? (fun p => p.id == pid)

/-- `Cart.findOne({user})`: at most one cart per user. -/
def findCart (db : DB) (uid : Nat) : Option Cart :=
  db.carts.find? (fun c => c.user == uid)

/-- Write a cart document back: replace the cart with the same user, or
append it if the user had none (the cart was created in memory). -/
def upsertCart : List Cart → Cart → List Cart
  | [], c => [c]
  | d :: ds, c => if d.user == c.user then c :: ds else d :: upsertCart ds c

/-- `cart.save()`. -/
def saveCart (db : DB) (c : Cart) : DB :=
  { db with carts := upsertCart db.carts c }

/-- Outcome of a cart-router request: the JSON cart on success, or the 400
or 404 error envelope. -/
inductive CResp where
  | okCart (c : Cart)
  | badRequest (msg : String)
  | notFound (msg : String)
deriving DecidableEq

/-- POST /api/cart/add (src/unnamed/part_000 lines 38-115).  `quantity`
defaults to 1 when absent; the raw value is compared against stock with
JavaScript `<` and coerced with `Number(...)` when stored. -/
def cartAdd (db : DB) (uid : Nat) (productId : Option Nat) (quantityRaw : JVal) :
    CResp × DB :=
  let quantity := match quantityRaw with
    | JVal.undef => JVal.jnum 1
    | v => v
  match productId with
  | none => (CResp.badRequest "Product ID is required", db)
  | some pid =>
    match findProduct db pid with
    | none => (CResp.notFound "Product not found", db)
    | some product =>
      if jlt (some product.stock) quantity.toNumber then
        (CResp.badRequest "Insufficient stock available", db)
      else
        let cart := (findCart db uid).getD { user := uid, items := [] }
        match cart.items.findIdx? (fun it => it.product == pid) with
        | some i =>
          let newQuantity :=
            jadd (cart.items.getD i { product := pid, quantity := none }).quantity
              quantity.toNumber
          if jlt (some product.stock) newQuantity then
            (CResp.badRequest "Cannot add more items. Insufficient stock available", db)
          else
            let cart' := { cart with
              items := cart.items.modify (fun it => { it with quantity := newQuantity }) i }
            (CResp.okCart cart', saveCart db cart')
        | none =>
          let cart' := { cart with
            items := cart.items ++ [{ product := pid, quantity := quantity.toNumber }] }
          (CResp.okCart cart', saveCart db cart')

/-- POST /api/cart/remove (src/unnamed/part_000 lines 120-162). -/
def cartRemove (db : DB) (uid : Nat) (productId : Option Nat) : CResp × DB :=
  match productId with
  | none => (CResp.badRequest "Product ID is required", db)
  | some pid =>
    match findCart db uid with
    | none => (CResp.notFound "Cart not found", db)
    | some cart =>
      let cart' := { cart with items := cart.items.filter (fun it => it.product != pid) }
      (CResp.okCart cart', saveCart db cart')

/-- POST /api/cart/update (src/unnamed/part_000 lines 167-240). -/
def cartUpdate (db : DB) (uid : Nat) (productId : Option Nat) (quantity : JVal) :
    CResp × DB :=
  match productId, quantity.truthy with
  | none, _ => (CResp.badRequest "Product ID and quantity are required", db)
  | some _, false => (CResp.badRequest "Product ID and quantity are required", db)
  | some pid, true =>
    if jlt quantity.toNumber (some 1) then
      (CResp.badRequest "Quantity must be at least 1", db)
    else
      match findProduct db pid with
      | none => (CResp.notFound "Product not found", db)
      | some product =>
        if jlt (some product.stock) quantity.toNumber then
          (CResp.badRequest "Insufficient stock available", db)
        else
          match findCart db uid with
          | none => (CResp.notFound "Cart not found", db)
          | some cart =>
            match cart.items.findIdx? (fun it => it.product == pid) with
            | none => (CResp.notFound "Item not found in cart", db)
            | some i =>
              let cart' := { cart with
                items := cart.items.modify
                  (fun it => { it with quantity := quantity.toNumber }) i }
              (CResp.okCart cart', saveCart db cart')

/-- DELETE /api/cart (src/unnamed/part_000 lines 245-271). -/
def cartClear (db : DB) (uid : Nat) : CResp × DB :=
  match findCart db uid with
  | none => (CResp.notFound "Cart not found", db)
  | some cart =>
    let cart' := { cart with items := ([] : List CartItem) }
    (CResp.okCart cart', saveCart db cart')

/-- The enumerated categories of src/models/Product.js. -/
def validCategories : List String :=
  ["Electronics", "Clothing", "Books", "Home & Garden", "Sports", "Toys", "Other"]

/-- The schema default for the image field (src/models/Product.js). -/
def placeholderImage : String :=
  "https://images.pexels.com/photos/1279813/pexels-photo-1279813.jpeg?auto=compress&cs=tinysrgb&w=400"

/-- Mongoose save-time validation of a product document
(src/models/Product.js): name and description required with length caps,
price and stock non-negative numbers (NaN, `none`, fails the numeric
validators), category drawn from the enumerated set. -/
def schemaOk (name description : String) (price : Option Int) (category : String)
    (stock : Option Int) : Bool :=
  name != "" && decide (name.length ≤ 100) &&
  description != "" && decide (description.length ≤ 1000) &&
  (match price with
   | some n => decide (0 ≤ n)
   | none => false) &&
  validCategories.contains category &&
  (match stock with
   | some n => decide (0 ≤ n)
   | none => false)

/-- Pagination block of the listing response (src/routes/products.js
lines 81-87). -/
structure Pagination where
  current : Int
  pages : Nat
  total : Nat
  hasNext : Bool
  hasPrev : Bool
deriving DecidableEq

/-- Payload of a successful listing response. -/
structure ListResult where
  products : List Product
  pagination : Pagination
deriving DecidableEq

/-- Outcome of a product-router request. -/
inductive PResp where
  | okList (r : ListResult)
  | okProduct (p : Product)
  | created (p : Product)
  | okEmpty
  | badRequest (msg : String)
  | notFound (msg : String)
  | forbidden (msg : String)
  | serverError
deriving DecidableEq

/-- The request body of a product create or update: the seven fields read
from `req.body` in src/routes/products.js (absent fields are undefined). -/
structure ProductBody where
  name : JVal
  description : JVal
  price : JVal
  category : JVal
  stock : JVal
  image : JVal
  featured : JVal
deriving DecidableEq

/-- POST /api/products (src/routes/products.js lines 132-167): truthiness
check on the four required fields, then `Product.create` with
`price: Number(price)`, `stock: Number(stock) || 0`,
`image: image || undefined` (the schema default fills in the placeholder)
and `featured: Boolean(featured)`.  A value the schema rejects surfaces as
a server error (500) with nothing stored. -/
def createProduct (db : DB) (b : ProductBody) : PResp × DB :=
  if !(b.name.truthy && b.description.truthy && b.price.truthy && b.category.truthy) then
    (PResp.badRequest "Please provide name, description, price, and category", db)
  else
    let nameV := trimStr b.name.toStr
    let descV := b.description.toStr
    let catV := b.category.toStr
    let stockV : Int := (b.stock.toNumber).getD 0
    let imageV := if b.image.truthy then b.image.toStr else placeholderImage
    let featuredV := b.featured.truthy
    match b.price.toNumber with
    | none => (PResp.serverError, db)
    | some priceN =>
      if schemaOk nameV descV (some priceN) catV (some stockV) then
        let p : Product :=
          { id := db.nextId, name := nameV, description := descV, price := priceN,
            category := catV, stock := stockV, image := imageV, featured := featuredV,
            createdAt := db.nextId }
        (PResp.created p, { db with products := db.products ++ [p], nextId := db.nextId + 1 })
      else (PResp.serverError, db)

/-- PUT /api/products/:id (src/routes/products.js lines 172-209): loads the
document, merges `name || product.name` (and likewise description,
category, image), `price !== undefined ? Number(price) : product.price`
(and likewise stock, and featured with `Boolean(featured)`), then saves;
a merged value the schema rejects surfaces as a server error (500) with
the store unchanged. -/
def updateProduct (db : DB) (pid : Nat) (b : ProductBody) : PResp × DB :=
  match findProduct db pid with
  | none => (PResp.notFound "Product not found", db)
  | some product =>
    let nameV := if b.name.truthy then trimStr b.name.toStr else product.name
    let descV := if b.description.truthy then b.description.toStr else product.description
    let priceV := match b.price with
      | JVal.undef => some product.price
      | v => v.toNumber
    let catV := if b.category.truthy then b.category.toStr else product.category
    let stockV := match b.stock with
      | JVal.undef => some product.stock
      | v => v.toNumber
    let imageV := if b.image.truthy then b.image.toStr else product.image
    let featuredV := match b.featured with
      | JVal.undef => product.featured
      | v => v.truthy
    match priceV, stockV with
    | some priceN, some stockN =>
      if schemaOk nameV descV (some priceN) catV (some stockN) then
        let p' : Product := { product with
          name := nameV, description := descV, price := priceN,
          category := catV, stock := stockN, image := imageV, featured := featuredV }
        (PResp.okProduct p',
          { db with products := db.products.map (fun q => if q.id == pid then p' else q) })
      else (PResp.serverError, db)
    | _, _ => (PResp.serverError, db)

/-- Does the character list start with the pattern? -/
def startsList : List Char → List Char → Bool
  | [], _ => true
  | _ :: _, [] => false
  | a :: as, b :: bs => a == b && startsList as bs

/-- Does the character list contain the pattern as a contiguous run? -/
def containsChars (pat : List Char) : List Char → Bool
  | [] => startsList pat []
  | l@(_ :: rest) => startsList pat l || containsChars pat rest

/-- Case-sensitive substring test. -/
def strContains (s pat : String) : Bool :=
  containsChars pat.data s.data

/-- Modelled from the spec: the database engine's full-text search over the
text index on name and description (src/models/Product.js line 48) — an
external collaborator whose code is not in the repository — as a
case-sensitive substring match over the two indexed fields. -/
def textMatch (s : String) (p : Product) : Bool :=
  strContains p.name s || strContains p.description s

/-- Query-string parameters of GET /api/products (absent or string). -/
structure ListQuery where
  category : Option String
  minPrice : Option String
  maxPrice : Option String
  search : Option String
  page : Option String
  limit : Option String
deriving DecidableEq

/-- Truthiness of a query-string parameter: present and non-empty. -/
def qTruthy : Option String → Bool
  | none => false
  | some s => s != ""

/-- The Mongo query object built by src/routes/products.js lines 45-62, as
a predicate on a stored product: exact category match unless the parameter
is absent, empty or the sentinel "all"; `$gte`/`$lte` price bounds for each
truthy bound; text search for a truthy search parameter.  (A bound that is
not a number matches no document.) -/
def matchesQuery (q : ListQuery) (p : Product) : Bool :=
  (match q.category with
   | some c => if c != "" && c != "all" then p.category == c else true
   | none => true) &&
  (match q.minPrice with
   | some s =>
     if s != "" then
       match strToNum s with
       | some g => decide (g ≤ p.price)
       | none => false
     else true
   | none => true) &&
  (match q.maxPrice with
   | some s =>
     if s != "" then
       match strToNum s with
       | some l => decide (p.price ≤ l)
       | none => false
     else true
   | none => true) &&
  (match q.search with
   | some s => if s != "" then textMatch s p else true
   | none => true)

/-- Insert a product into a list kept sorted by descending createdAt. -/
def insertByCreatedAt (p : Product) : List Product → List Product
  | [] => [p]
  | q :: qs =>
    if q.createdAt ≤ p.createdAt then p :: q :: qs else q :: insertByCreatedAt p qs

/-- `.sort({createdAt: -1})`: newest first. -/
def sortByCreatedAtDesc (l : List Product) : List Product :=
  l.foldr insertByCreatedAt []

/-- `Math.ceil(total / limit)` for positive limit. -/
def ceilDiv (a b : Nat) : Nat :=
  (a + b - 1) / b

/-- GET /api/products (src/routes/products.js lines 40-98).  page and limit
default to 1 and 12 and are coerced with `Number(...)`; the matching
documents are counted, sorted newest-first, and paged with
`skip((page-1)*limit).limit(limit)`.  Out-of-range paging input (a NaN or
negative skip, a non-positive limit) surfaces as a backing-store error
(500); the claims only concern page ≥ 1 and limit ≥ 1. -/
def getProducts (db : DB) (q : ListQuery) : PResp :=
  match (match q.page with
         | none => some (1 : Int)
         | some s => strToNum s),
        (match q.limit with
         | none => some (12 : Int)
         | some s => strToNum s) with
  | some pg, some lim =>
    if pg < 1 || lim < 1 then PResp.serverError
    else
      let filtered := db.products.filter (matchesQuery q)
      let sorted := sortByCreatedAtDesc filtered
      let prods := (sorted.drop ((pg - 1) * lim).toNat).take lim.toNat
      let total := filtered.length
      let pages := ceilDiv total lim.toNat
      PResp.okList
        { products := prods,
          pagination :=
            { current := pg, pages := pages, total := total,
              hasNext := decide (pg < (pages : Int)), hasPrev := decide (1 < pg) } }
  | _, _ => PResp.serverError

/-- The caller context the authentication collaborator attaches to a
request (`req.user`). -/
structure UserCtx where
  userId : Nat
  role : String
deriving DecidableEq

/-- src/middleware/isAdmin.js: the request passes the gate exactly when a
caller context is present and its role is admin. -/
def isAdmin (u : Option UserCtx) : Bool :=
  match u with
  | some ctx => ctx.role == "admin"
  | none => false

/-- The admin gate as middleware: when the check fails the request is
answered with 403 and the gated handler is never executed, so the store is
untouched. -/
def gateAdmin (u : Option UserCtx) (handler : DB → PResp × DB) (db : DB) : PResp × DB :=
  if isAdmin u then handler db else (PResp.forbidden "Access denied. Admins only.", db)

/-- HTTP methods used by the product router. -/
inductive Method where
  | get
  | post
  | put
  | del
deriving DecidableEq

/-- One route of the product router: method, path, and whether the
`auth, isAdmin` middleware pair guards it. -/
structure Route where
  method : Method
  path : String
  adminGated : Bool
deriving DecidableEq

/-- The product router's routes in declaration order
(src/routes/products.js): upload, list, get-one, create, update, delete. -/
def productRoutes : List Route :=
  [ { method := Method.post, path := "/upload", adminGated := true },
    { method := Method.get, path := "/", adminGated := false },
    { method := Method.get, path := "/:id", adminGated := false },
    { method := Method.post, path := "/", adminGated := true },
    { method := Method.put, path := "/:id", adminGated := true },
    { method := Method.del, path := "/:id", adminGated := true } ]

/-! Concrete fixtures used to instantiate the claims on explicit inputs. -/

/-- A stored product: id 1, price 10, stock 5, category Electronics. -/
def prodA : Product :=
  { id := 1, name := "Widget", description := "A widget", price := 10,
    category := "Electronics", stock := 5, image := "img", featured := false, createdAt := 1 }

/-- A second stored product: id 2, price 8, stock 9, category Toys. -/
def prodB : Product :=
  { id := 2, name := "Ball", description := "A ball", price := 8,
    category := "Toys", stock := 9, image := "img", featured := false, createdAt := 2 }

/-- A store with the two products and no carts. -/
def dbA : DB := { products := [prodA, prodB], nextId := 3, carts := [] }

/-- The cart user 7 gets after adding 3 of product 1 to an empty cart. -/
def cartA3 : Cart := { user := 7, items := [{ product := 1, quantity := some 3 }] }

/-- The store after that first add. -/
def dbA3 : DB := { dbA with carts := [cartA3] }

/-- A request body with every field absent. -/
def bodyNone : ProductBody :=
  { name := JVal.undef, description := JVal.undef, price := JVal.undef,
    category := JVal.undef, stock := JVal.undef, image := JVal.undef, featured := JVal.undef }

/-- A fully valid create body (stock and image left absent). -/
def bodyFull : ProductBody :=
  { name := JVal.jstr "Thing", description := JVal.jstr "Nice", price := JVal.jnum 3,
    category := JVal.jstr "Toys", stock := JVal.undef, image := JVal.undef,
    featured := JVal.undef }

/-- The listing filter of the concrete claim: Electronics priced 10 to 50. -/
def queryE : ListQuery :=
  { category := some "Electronics", minPrice := some "10", maxPrice := some "50",
    search := none, page := none, limit := none }

/-- The merged document the amended C2 claim predicts for an update: string
fields (name, description, category, image) overwrite only when the
provided value is truthy (an explicit empty string is treated as absent),
while price, stock and featured are presence-checked, so explicit zero and
false values overwrite; id and createdAt are untouched. -/
def specMergedProduct (product : Product) (b : ProductBody) (priceN stockN : Int) : Product :=
  { id := product.id,
    name := if b.name.truthy then trimStr b.name.toStr else product.name,
    description := if b.description.truthy then b.description.toStr else product.description,
    price := priceN,
    category := if b.category.truthy then b.category.toStr else product.category,
    stock := stockN,
    image := if b.image.truthy then b.image.toStr else product.image,
    featured := match b.featured with
      | JVal.undef => product.featured
      | v => v.truthy,
    createdAt := product.createdAt }

/-! Helper lemmas about the store primitives. -/

/-- A cart found for a user belongs to that user. -/
theorem findCart_user {db : DB} {uid : Nat} {c : Cart} (h : findCart db uid = some c) :
    c.user = uid := by
  unfold findCart at h
  have hp := List.find?_some h
  simpa using hp

/-- After saving a cart, looking the user up finds exactly that cart. -/
theorem find?_upsertCart (l : List Cart) (c : Cart) :
    List.find? (fun d => d.user == c.user) (upsertCart l c) = some c := by
  induction l with
  | nil => simp [upsertCart, List.find?]
  | cons d ds ih =>
    rw [upsertCart]
    by_cases hd : (d.user == c.user) = true
    · rw [if_pos hd]
      simp [List.find?]
    · rw [if_neg hd]
      have hfd : (d.user == c.user) = false := by simpa using hd
      simp only [List.find?_cons, hfd]
      exact ih

/-- `findCart` after `saveCart` returns the saved cart. -/
theorem findCart_saveCart (db : DB) (c : Cart) :
    findCart (saveCart db c) c.user = some c := by
  unfold findCart saveCart
  exact find?_upsertCart db.carts c

/-- Saving the same cart twice is the same as saving it once. -/
theorem upsertCart_idem (l : List Cart) (c : Cart) :
    upsertCart (upsertCart l c) c = upsertCart l c := by
  induction l with
  | nil => simp [upsertCart]
  | cons d ds ih =>
    rw [upsertCart]
    by_cases hd : (d.user == c.user) = true
    · rw [if_pos hd, upsertCart, if_pos (by simp)]
    · rw [if_neg hd, upsertCart, if_neg hd, ih]

/-- Membership in an insertion. -/
theorem mem_insertByCreatedAt {p q : Product} {l : List Product} :
    q ∈ insertByCreatedAt p l ↔ q = p ∨ q ∈ l := by
  induction l with
  | nil => simp [insertByCreatedAt]
  | cons a as ih =>
    unfold insertByCreatedAt
    split
    · simp
    · simp only [List.mem_cons, ih]
      tauto

/-- Sorting preserves membership. -/
theorem mem_sortByCreatedAtDesc {p : Product} {l : List Product} :
    p ∈ sortByCreatedAtDesc l ↔ p ∈ l := by
  induction l with
  | nil => simp [sortByCreatedAtDesc]
  | cons a as ih =>
    show p ∈ insertByCreatedAt a (sortByCreatedAtDesc as) ↔ _
    rw [mem_insertByCreatedAt, ih]
    exact (List.mem_cons).symm

/-- Inserting into a descending-by-createdAt list keeps it descending. -/
theorem pairwise_insertByCreatedAt {p : Product} {l : List Product}
    (hl : List.Pairwise (fun a b => b.createdAt ≤ a.createdAt) l) :
    List.Pairwise (fun a b => b.createdAt ≤ a.createdAt) (insertByCreatedAt p l) := by
  induction l with
  | nil => simp [insertByCreatedAt]
  | cons a as ih =>
    rw [List.pairwise_cons] at hl
    unfold insertByCreatedAt
    split
    · rename_i hle
      rw [List.pairwise_cons]
      constructor
      · intro x hx
        rcases List.mem_cons.mp hx with rfl | hx
        · exact hle
        · exact le_trans (hl.1 x hx) hle
      · exact List.pairwise_cons.mpr hl
    · rename_i hgt
      rw [List.pairwise_cons]
      constructor
      · intro x hx
        rcases mem_insertByCreatedAt.mp hx with rfl | hx
        · exact le_of_not_le hgt
        · exact hl.1 x hx
      · exact ih hl.2

/-- The sort produces a descending-by-createdAt list: newest first. -/
theorem pairwise_sortByCreatedAtDesc (l : List Product) :
    List.Pairwise (fun a b => b.createdAt ≤ a.createdAt) (sortByCreatedAtDesc l) := by
  induction l with
  | nil => simp [sortByCreatedAtDesc]
  | cons a as ih => exact pairwise_insertByCreatedAt ih

/-- `ceilDiv a b * b` covers `a`: the page count is enough pages. -/
theorem le_ceilDiv_mul (a b : Nat) (hb : 1 ≤ b) : a ≤ ceilDiv a b * b := by
  rcases Nat.eq_zero_or_pos a with ha | ha
  · simp [ha]
  · unfold ceilDiv
    have h1 : a + b - 1 = (a - 1) + b := by omega
    rw [h1, Nat.add_div_right _ hb]
    have h2 : a - 1 < ((a - 1) / b + 1) * b :=
      (Nat.div_lt_iff_lt_mul hb).mp (Nat.lt_succ_self _)
    exact Nat.le_of_pred_lt h2

/-- `ceilDiv` is the least such count: any m pages of size b that cover a
are at least `ceilDiv a b` pages. -/
theorem ceilDiv_le (a b m : Nat) (hb : 1 ≤ b) (h : a ≤ m * b) : ceilDiv a b ≤ m := by
  unfold ceilDiv
  rw [Nat.div_le_iff_le_mul_add_pred hb]
  have e : a + b - 1 = a + (b - 1) := by omega
  rw [e]
  have h' : a ≤ b * m := by rw [Nat.mul_comm]; exact h
  exact Nat.add_le_add h' (Nat.le_refl _)

/-- Forward evaluation of a listing with parsed positive page and limit:
the handler returns the filtered documents, sorted newest-first, paged,
with the pagination block computed as in the source. -/
theorem getProducts_eq (db : DB) (q : ListQuery) (pg lim : Int)
    (hpg : (match q.page with | none => some (1 : Int) | some s => strToNum s) = some pg)
    (hlim : (match q.limit with | none => some (12 : Int) | some s => strToNum s) = some lim)
    (h1 : 1 ≤ pg) (h2 : 1 ≤ lim) :
    getProducts db q = PResp.okList
      { products := ((sortByCreatedAtDesc (db.products.filter (matchesQuery q))).drop
          ((pg - 1) * lim).toNat).take lim.toNat,
        pagination :=
          { current := pg,
            pages := ceilDiv (db.products.filter (matchesQuery q)).length lim.toNat,
            total := (db.products.filter (matchesQuery q)).length,
            hasNext := decide
              (pg < ((ceilDiv (db.products.filter (matchesQuery q)).length lim.toNat : Nat) : Int)),
            hasPrev := decide (1 < pg) } } := by
  unfold getProducts
  rw [hpg, hlim]
  have hbad : ¬ ((decide (pg < 1) || decide (lim < 1)) = true) := by
    simp only [Bool.or_eq_true, decide_eq_true_eq]
    push_neg
    exact ⟨by omega, by omega⟩
  simp only [if_neg hbad]

/-- Every product in a successful listing matches the Mongo query. -/
theorem mem_getProducts_matches {db : DB} {q : ListQuery} {pg lim : Int} {r : ListResult}
    {p : Product}
    (hpg : (match q.page with | none => some (1 : Int) | some s => strToNum s) = some pg)
    (hlim : (match q.limit with | none => some (12 : Int) | some s => strToNum s) = some lim)
    (h1 : 1 ≤ pg) (h2 : 1 ≤ lim)
    (h : getProducts db q = PResp.okList r) (hp : p ∈ r.products) :
    matchesQuery q p = true := by
  rw [getProducts_eq db q pg lim hpg hlim h1 h2] at h
  have hr := PResp.okList.inj h
  rw [← hr] at hp
  have hp' : p ∈ List.take lim.toNat
      (List.drop ((pg - 1) * lim).toNat
        (sortByCreatedAtDesc (List.filter (matchesQuery q) db.products))) := hp
  have hmem : p ∈ sortByCreatedAtDesc (db.products.filter (matchesQuery q)) :=
    (List.drop_sublist _ _).mem ((List.take_sublist _ _).mem hp')
  have hf : p ∈ db.products.filter (matchesQuery q) := mem_sortByCreatedAtDesc.mp hmem
  exact (List.mem_filter.mp hf).2

/-! The claims. -/

/-- C5: For Remove(userId, productId) when the user's cart exists: if no
line item matches productId the operation succeeds (not an error) and the
line-item sequence is unchanged; if line items match, every matching item
is removed and all others kept; the operation fails with a validation
error when productId is missing, and with not-found when the user has no
cart. -/
theorem cartRemove_spec_C5 :
    (∀ (db : DB) (uid : Nat),
        cartRemove db uid none = (CResp.badRequest "Product ID is required", db))
  ∧ (∀ (db : DB) (uid pid : Nat), findCart db uid = none →
        cartRemove db uid (some pid) = (CResp.notFound "Cart not found", db))
  ∧ (∀ (db : DB) (uid pid : Nat) (cart : Cart), findCart db uid = some cart →
        (∀ it ∈ cart.items, it.product ≠ pid) →
        cartRemove db uid (some pid) = (CResp.okCart cart, saveCart db cart))
  ∧ (∀ (db : DB) (uid pid : Nat) (cart cart' : Cart), findCart db uid = some cart →
        (cartRemove db uid (some pid)).fst = CResp.okCart cart' →
        ∀ it : CartItem, (it ∈ cart'.items ↔ it ∈ cart.items ∧ it.product ≠ pid)) := by
  refine ⟨?_, ?_, ?_, ?_⟩
  · intro db uid
    rfl
  · intro db uid pid h
    simp [cartRemove, h]
  · intro db uid pid cart h hnone
    have hfilter : cart.items.filter (fun it => it.product != pid) = cart.items :=
      List.filter_eq_self.mpr (fun it hit => by simpa using hnone it hit)
    simp [cartRemove, h, hfilter]
  · intro db uid pid cart cart' h hfst it
    simp only [cartRemove, h] at hfst
    have hc : { user := cart.user, items := cart.items.filter (fun it => it.product != pid) }
        = cart' := by
      exact CResp.okCart.inj hfst
    rw [← hc]
    simp [List.mem_filter]

/-- C6: Clear(userId) fails with not-found when the user has no cart;
otherwise it empties the line-item sequence while the cart record
persists, so clearing twice in a row succeeds both times, the second call
succeeding on the already-empty cart. -/
theorem cartClear_spec_C6 :
    (∀ (db : DB) (uid : Nat), findCart db uid = none →
        cartClear db uid = (CResp.notFound "Cart not found", db))
  ∧ (∀ (db : DB) (uid : Nat) (cart : Cart), findCart db uid = some cart →
        cartClear db uid =
          (CResp.okCart { user := cart.user, items := [] },
           saveCart db { user := cart.user, items := [] }))
  ∧ (∀ (db : DB) (uid : Nat) (cart : Cart), findCart db uid = some cart →
        cartClear ((cartClear db uid).snd) uid =
          (CResp.okCart { user := cart.user, items := [] }, (cartClear db uid).snd)) := by
  refine ⟨?_, ?_, ?_⟩
  · intro db uid h
    simp [cartClear, h]
  · intro db uid cart h
    simp [cartClear, h]
  · intro db uid cart h
    have huser : cart.user = uid := findCart_user h
    have hsnd : (cartClear db uid).snd = saveCart db { user := cart.user, items := [] } := by
      simp [cartClear, h]
    rw [hsnd]
    have hfind : findCart (saveCart db { user := cart.user, items := [] }) uid =
        some { user := cart.user, items := [] } := by
      have hs := findCart_saveCart db { user := cart.user, items := [] }
      simpa [huser] using hs
    simp only [cartClear]
    rw [hfind]
    simp [saveCart, upsertCart_idem]

/-- C9: the Access Gate passes a request iff the caller context is present
with role admin; on failure it responds 403 and the gated handler never
runs (the store is untouched); every product-store mutation route (create,
update, delete, upload) carries the gate while the GET routes (list, get)
do not. -/
theorem isAdmin_spec_C9 :
    (∀ u : Option UserCtx, isAdmin u = true ↔ ∃ ctx, u = some ctx ∧ ctx.role = "admin")
  ∧ (∀ (u : Option UserCtx) (handler : DB → PResp × DB) (db : DB), isAdmin u = false →
        gateAdmin u handler db = (PResp.forbidden "Access denied. Admins only.", db))
  ∧ (∀ (u : Option UserCtx) (handler : DB → PResp × DB) (db : DB), isAdmin u = true →
        gateAdmin u handler db = handler db)
  ∧ (∀ r ∈ productRoutes, (r.adminGated = true ↔ r.method ≠ Method.get)) := by
  refine ⟨?_, ?_, ?_, by decide⟩
  · intro u
    cases u with
    | none => simp [isAdmin]
    | some ctx => simp [isAdmin]
  · intro u handler db h
    simp [gateAdmin, h]
  · intro u handler db h
    simp [gateAdmin, h]

/-- C10 (implicit): Create rejects a request whose required fields are
present but falsy — an explicit price of 0 or an empty-string name,
description or category — with the same validation error used for absent
fields, because the required-field check tests truthiness; for every input
with price = 0 the operation fails and nothing is stored. -/
theorem createProduct_spec_C10 :
    (∀ (db : DB) (b : ProductBody), b.price = JVal.jnum 0 →
        createProduct db b =
          (PResp.badRequest "Please provide name, description, price, and category", db))
  ∧ (∀ (db : DB) (b : ProductBody), b.name = JVal.jstr "" →
        createProduct db b =
          (PResp.badRequest "Please provide name, description, price, and category", db))
  ∧ (∀ (db : DB) (b : ProductBody), b.description = JVal.jstr "" →
        createProduct db b =
          (PResp.badRequest "Please provide name, description, price, and category", db))
  ∧ (∀ (db : DB) (b : ProductBody), b.category = JVal.jstr "" →
        createProduct db b =
          (PResp.badRequest "Please provide name, description, price, and category", db))
  ∧ createProduct dbA { bodyFull with price := JVal.jnum 0 } =
      (PResp.badRequest "Please provide name, description, price, and category", dbA) := by
  refine ⟨?_, ?_, ?_, ?_, by decide⟩
  all_goals intro db b h
  all_goals simp [createProduct, h, JVal.truthy]

/-- C1: For Add(userId, productId, quantity): when the cart already holds
a line item for the product, the new quantity is added to the existing one
and the combined total is re-validated against current stock; if it
exceeds stock the operation fails with an insufficient-stock error and the
persisted cart is unchanged (the line item keeps its prior quantity),
otherwise the line item carries the combined quantity; with no existing
line item a new one is appended.  Concretely: adding 3 of product 1
(stock 5) to an empty cart yields one line item with quantity 3, and
adding 3 more fails and leaves it at 3. -/
theorem cartAdd_spec_C1 :
    (∀ (db : DB) (uid pid : Nat) (n oldQ : Int) (product : Product) (cart : Cart) (i : Nat),
        findProduct db pid = some product →
        findCart db uid = some cart →
        cart.items.findIdx? (fun it => it.product == pid) = some i →
        (cart.items.getD i { product := pid, quantity := none }).quantity = some oldQ →
        ¬ product.stock < n →
        product.stock < oldQ + n →
        cartAdd db uid (some pid) (JVal.jnum n) =
          (CResp.badRequest "Cannot add more items. Insufficient stock available", db))
  ∧ (∀ (db : DB) (uid pid : Nat) (n oldQ : Int) (product : Product) (cart : Cart) (i : Nat),
        findProduct db pid = some product →
        findCart db uid = some cart →
        cart.items.findIdx? (fun it => it.product == pid) = some i →
        (cart.items.getD i { product := pid, quantity := none }).quantity = some oldQ →
        ¬ product.stock < n →
        ¬ product.stock < oldQ + n →
        cartAdd db uid (some pid) (JVal.jnum n) =
          (CResp.okCart
            { user := cart.user,
              items := cart.items.modify (fun it => { it with quantity := some (oldQ + n) }) i },
           saveCart db
            { user := cart.user,
              items := cart.items.modify (fun it => { it with quantity := some (oldQ + n) }) i }))
  ∧ (∀ (db : DB) (uid pid : Nat) (n : Int) (product : Product) (cart : Cart),
        findProduct db pid = some product →
        findCart db uid = some cart →
        cart.items.findIdx? (fun it => it.product == pid) = none →
        ¬ product.stock < n →
        cartAdd db uid (some pid) (JVal.jnum n) =
          (CResp.okCart
            { user := cart.user,
              items := cart.items ++ [{ product := pid, quantity := some n }] },
           saveCart db
            { user := cart.user,
              items := cart.items ++ [{ product := pid, quantity := some n }] }))
  ∧ cartAdd dbA 7 (some 1) (JVal.jnum 3) = (CResp.okCart cartA3, dbA3)
  ∧ cartAdd dbA3 7 (some 1) (JVal.jnum 3) =
      (CResp.badRequest "Cannot add more items. Insufficient stock available", dbA3) := by
  refine ⟨?_, ?_, ?_, by decide, by decide⟩
  · intro db uid pid n oldQ product cart i h1 h2 h3 h4 h5 h6
    simp at h4
    simp [cartAdd, h1, h2, h3, h4, jlt, jadd, JVal.toNumber, h5, h6]
  · intro db uid pid n oldQ product cart i h1 h2 h3 h4 h5 h6
    simp at h4
    simp [cartAdd, h1, h2, h3, h4, jlt, jadd, JVal.toNumber, h5, h6]
  · intro db uid pid n product cart h1 h2 h3 h4
    simp [cartAdd, h1, h2, h3, jlt, jadd, JVal.toNumber, h4]

/-- C3: For UpdateQuantity(userId, productId, quantity): when the user's
cart exists but holds no line item for the product the operation fails
with not-found and never creates a line item, even when the product exists
with sufficient stock; it also fails when productId or quantity is missing
or falsy, when quantity < 1, when the product does not resolve, when
quantity exceeds current stock, or when the cart is absent; otherwise it
overwrites that one item's quantity. -/
theorem cartUpdate_spec_C3 :
    (∀ (db : DB) (uid pid : Nat) (n : Int) (product : Product) (cart : Cart),
        n ≠ 0 → ¬ n < 1 →
        findProduct db pid = some product →
        ¬ product.stock < n →
        findCart db uid = some cart →
        cart.items.findIdx? (fun it => it.product == pid) = none →
        cartUpdate db uid (some pid) (JVal.jnum n) =
          (CResp.notFound "Item not found in cart", db))
  ∧ (∀ (db : DB) (uid : Nat) (q : JVal),
        cartUpdate db uid none q =
          (CResp.badRequest "Product ID and quantity are required", db))
  ∧ (∀ (db : DB) (uid pid : Nat) (q : JVal), q.truthy = false →
        cartUpdate db uid (some pid) q =
          (CResp.badRequest "Product ID and quantity are required", db))
  ∧ (∀ (db : DB) (uid pid : Nat) (n : Int), n ≠ 0 → n < 1 →
        cartUpdate db uid (some pid) (JVal.jnum n) =
          (CResp.badRequest "Quantity must be at least 1", db))
  ∧ (∀ (db : DB) (uid pid : Nat) (n : Int), n ≠ 0 → ¬ n < 1 →
        findProduct db pid = none →
        cartUpdate db uid (some pid) (JVal.jnum n) = (CResp.notFound "Product not found", db))
  ∧ (∀ (db : DB) (uid pid : Nat) (n : Int) (product : Product), n ≠ 0 → ¬ n < 1 →
        findProduct db pid = some product → product.stock < n →
        cartUpdate db uid (some pid) (JVal.jnum n) =
          (CResp.badRequest "Insufficient stock available", db))
  ∧ (∀ (db : DB) (uid pid : Nat) (n : Int) (product : Product), n ≠ 0 → ¬ n < 1 →
        findProduct db pid = some product → ¬ product.stock < n →
        findCart db uid = none →
        cartUpdate db uid (some pid) (JVal.jnum n) = (CResp.notFound "Cart not found", db))
  ∧ (∀ (db : DB) (uid pid : Nat) (n : Int) (product : Product) (cart : Cart) (i : Nat),
        n ≠ 0 → ¬ n < 1 →
        findProduct db pid = some product → ¬ product.stock < n →
        findCart db uid = some cart →
        cart.items.findIdx? (fun it => it.product == pid) = some i →
        cartUpdate db uid (some pid) (JVal.jnum n) =
          (CResp.okCart
            { user := cart.user,
              items := cart.items.modify (fun it => { it with quantity := some n }) i },
           saveCart db
            { user := cart.user,
              items := cart.items.modify (fun it => { it with quantity := some n }) i }))
  ∧ cartUpdate dbA3 7 (some 2) (JVal.jnum 4) =
      (CResp.notFound "Item not found in cart", dbA3) := by
  refine ⟨?_, ?_, ?_, ?_, ?_, ?_, ?_, ?_, by decide⟩
  · intro db uid pid n product cart hn0 hn1 hp hs hc hidx
    have hb : (n != 0) = true := by simpa using hn0
    simp [cartUpdate, JVal.truthy, hb, hn1, jlt, JVal.toNumber, hp, hs, hc, hidx]
  · intro db uid q
    rfl
  · intro db uid pid q h
    simp [cartUpdate, h]
  · intro db uid pid n hn0 hn1
    have hb : (n != 0) = true := by simpa using hn0
    simp [cartUpdate, JVal.truthy, hb, hn1, jlt, JVal.toNumber]
  · intro db uid pid n hn0 hn1 hp
    have hb : (n != 0) = true := by simpa using hn0
    simp [cartUpdate, JVal.truthy, hb, hn1, jlt, JVal.toNumber, hp]
  · intro db uid pid n product hn0 hn1 hp hs
    have hb : (n != 0) = true := by simpa using hn0
    simp [cartUpdate, JVal.truthy, hb, hn1, jlt, JVal.toNumber, hp, hs]
  · intro db uid pid n product hn0 hn1 hp hs hc
    have hb : (n != 0) = true := by simpa using hn0
    simp [cartUpdate, JVal.truthy, hb, hn1, jlt, JVal.toNumber, hp, hs, hc]
  · intro db uid pid n product cart i hn0 hn1 hp hs hc hidx
    have hb : (n != 0) = true := by simpa using hn0
    simp [cartUpdate, JVal.truthy, hb, hn1, jlt, JVal.toNumber, hp, hs, hc, hidx]

/-- C2 counterexample: the claim says every field provided in an update
request overwrites the stored value, but providing name as the explicit
empty string leaves the stored name untouched (the merge is by truthiness
for string fields, not by presence): the update succeeds and the product
keeps its old non-empty name. -/
theorem updateProduct_C2_counterexample :
    (updateProduct dbA 1 { bodyNone with name := JVal.jstr "" }).fst =
      PResp.okProduct prodA
    ∧ ({ bodyNone with name := JVal.jstr "" } : ProductBody).name = JVal.jstr ""
    ∧ prodA.name = "Widget" := by
  decide

/-- C2 (amended): for Update(id, fields), price, stock and featured are
presence-checked (an explicit 0 or false overwrites, so explicit stock 0
persists as 0), while for name, description, category and image a provided
truthy value overwrites and a provided falsy value (the empty string) is
treated like an absent field; every omitted field keeps its prior value. -/
theorem updateProduct_spec_C2_amended :
    (∀ (db : DB) (pid : Nat) (b : ProductBody) (product : Product) (priceN stockN : Int),
        findProduct db pid = some product →
        (match b.price with
         | JVal.undef => some product.price
         | v => v.toNumber) = some priceN →
        (match b.stock with
         | JVal.undef => some product.stock
         | v => v.toNumber) = some stockN →
        schemaOk (if b.name.truthy then trimStr b.name.toStr else product.name)
          (if b.description.truthy then b.description.toStr else product.description)
          (some priceN)
          (if b.category.truthy then b.category.toStr else product.category)
          (some stockN) = true →
        updateProduct db pid b =
          (PResp.okProduct (specMergedProduct product b priceN stockN),
           { db with products := db.products.map (fun q =>
               if q.id == pid then specMergedProduct product b priceN stockN else q) }))
  ∧ (∀ (product : Product) (b : ProductBody) (priceN stockN : Int),
        (specMergedProduct product b priceN stockN).stock = stockN ∧
        (specMergedProduct product b priceN stockN).price = priceN)
  ∧ ((JVal.jnum 0).toNumber = some 0 ∧ (JVal.jnum 0).truthy = false)
  ∧ (updateProduct dbA 1 { bodyNone with stock := JVal.jnum 0 }).fst =
      PResp.okProduct
        { id := 1, name := "Widget", description := "A widget", price := 10,
          category := "Electronics", stock := 0, image := "img", featured := false,
          createdAt := 1 }
  ∧ (updateProduct dbA 1 bodyNone).fst = PResp.okProduct prodA := by
  refine ⟨?_, ?_, by decide, by decide, by decide⟩
  · intro db pid b product priceN stockN hfind hprice hstock hok
    simp [updateProduct, hfind, hprice, hstock, hok, specMergedProduct]
  · intro product b priceN stockN
    exact ⟨rfl, rfl⟩

/-- C4: Create fails with a validation error (400), storing nothing, when
any of name, description, price or category is absent; a product that does
get created has stock defaulting to 0 when the stock field is absent or
non-numeric, featured coerced to a boolean, image defaulting to the
placeholder when absent, non-negative price and stock, and is appended to
the store. -/
theorem createProduct_spec_C4 :
    (∀ (db : DB) (b : ProductBody),
        b.name = JVal.undef ∨ b.description = JVal.undef ∨ b.price = JVal.undef ∨
          b.category = JVal.undef →
        createProduct db b =
          (PResp.badRequest "Please provide name, description, price, and category", db))
  ∧ (∀ (db : DB) (b : ProductBody) (p : Product) (db' : DB),
        createProduct db b = (PResp.created p, db') →
        p.stock = (b.stock.toNumber).getD 0 ∧
        (b.stock = JVal.undef → p.stock = 0) ∧
        (∀ s, b.stock = JVal.jstr s → strToNum s = none → p.stock = 0) ∧
        p.featured = b.featured.truthy ∧
        (b.image = JVal.undef → p.image = placeholderImage) ∧
        0 ≤ p.price ∧ 0 ≤ p.stock ∧
        db'.products = db.products ++ [p])
  ∧ (createProduct dbA bodyFull).fst = PResp.created
      { id := 3, name := "Thing", description := "Nice", price := 3, category := "Toys",
        stock := 0, image := placeholderImage, featured := false, createdAt := 3 } := by
  refine ⟨?_, ?_, by decide⟩
  · intro db b h
    rcases h with h | h | h | h
    all_goals simp [createProduct, h, JVal.truthy]
  · intro db b p db' h
    simp only [createProduct] at h
    split at h
    · simp at h
    · split at h
      · simp at h
      · rename_i priceN hprice
        split at h
        · rename_i hok
          have h1 := congrArg Prod.fst h
          have h2 := congrArg Prod.snd h
          simp only [Prod.fst, Prod.snd] at h1 h2
          have hp := PResp.created.inj h1
          rw [← hp, ← h2]
          simp only [schemaOk, Bool.and_eq_true, decide_eq_true_eq] at hok
          refine ⟨rfl, ?_, ?_, rfl, ?_, ?_, ?_, rfl⟩
          · intro hs
            simp [hs, JVal.toNumber]
          · intro s hs hnone
            simp [hs, JVal.toNumber, hnone]
          · intro hi
            simp [hi, JVal.truthy]
          · tauto
          · tauto
        · simp at h

/-- C7: the category filter of List is an exact match, skipped when the
category parameter is absent or the sentinel "all"; minPrice and maxPrice
compose into a numeric range when given; with category Electronics,
minPrice 10 and maxPrice 50 every returned product is an Electronics
product priced between 10 and 50. -/
theorem getProducts_spec_C7 :
    (∀ (q : ListQuery) (p : Product) (c : String),
        q.category = none ∨ q.category = some "all" →
        matchesQuery q { p with category := c } = matchesQuery q p)
  ∧ (∀ (q : ListQuery) (p : Product) (c : String),
        q.category = some c → c ≠ "" → c ≠ "all" →
        matchesQuery q p = true → p.category = c)
  ∧ (∀ (q : ListQuery) (p : Product) (s : String) (g : Int),
        q.minPrice = some s → s ≠ "" → strToNum s = some g →
        matchesQuery q p = true → g ≤ p.price)
  ∧ (∀ (q : ListQuery) (p : Product) (s : String) (l : Int),
        q.maxPrice = some s → s ≠ "" → strToNum s = some l →
        matchesQuery q p = true → p.price ≤ l)
  ∧ (∀ (db : DB) (r : ListResult) (p : Product),
        getProducts db queryE = PResp.okList r → p ∈ r.products →
        p.category = "Electronics" ∧ 10 ≤ p.price ∧ p.price ≤ 50) := by
  refine ⟨?_, ?_, ?_, ?_, ?_⟩
  · intro q p c h
    rcases h with h | h
    all_goals simp [matchesQuery, h, textMatch]
  · intro q p c hc hne hall hm
    have hb : (c != "" && c != "all") = true := by simp [hne, hall]
    simp only [matchesQuery, hc, hb, if_true, Bool.and_eq_true] at hm
    simpa using hm.1.1.1
  · intro q p s g hs hne hg hm
    have hb : (s != "") = true := by simp [hne]
    simp only [matchesQuery, hs, hb, if_true, hg, Bool.and_eq_true] at hm
    simpa using hm.1.1.2
  · intro q p s l hs hne hl hm
    have hb : (s != "") = true := by simp [hne]
    simp only [matchesQuery, hs, hb, if_true, hl, Bool.and_eq_true] at hm
    simpa using hm.1.2
  · intro db r p hok hp
    have hm : matchesQuery queryE p = true :=
      mem_getProducts_matches rfl rfl (by omega) (by omega) hok hp
    have h10 : strToNum "10" = some 10 := by decide
    have h50 : strToNum "50" = some 50 := by decide
    have hb1 : (("Electronics" : String) != "" && ("Electronics" : String) != "all") = true := by
      decide
    have hb2 : (("10" : String) != "") = true := by decide
    have hb3 : (("50" : String) != "") = true := by decide
    simp only [matchesQuery, queryE, hb1, hb2, hb3, if_true, h10, h50, Bool.and_eq_true] at hm
    exact ⟨by simpa using hm.1.1.1, by simpa using hm.1.1.2, by simpa using hm.1.2⟩

/-- C8: List defaults page to 1 and limit to 12; the result is sorted
newest-first, skips (page-1)*limit matching documents and returns at most
limit of them; the pagination block satisfies total = count of matching
documents, pages = ceil(total/limit) (characterized as the least page
count covering total), hasNext = (page < pages) and hasPrev = (page > 1). -/
theorem getProducts_spec_C8 :
    (∀ (db : DB) (c mn mx se : Option String),
        getProducts db
          { category := c, minPrice := mn, maxPrice := mx, search := se,
            page := none, limit := none } =
        getProducts db
          { category := c, minPrice := mn, maxPrice := mx, search := se,
            page := some "1", limit := some "12" })
  ∧ (∀ (db : DB) (q : ListQuery) (pg lim : Int) (r : ListResult),
        (match q.page with | none => some (1 : Int) | some s => strToNum s) = some pg →
        (match q.limit with | none => some (12 : Int) | some s => strToNum s) = some lim →
        1 ≤ pg → 1 ≤ lim →
        getProducts db q = PResp.okList r →
        r.products = ((sortByCreatedAtDesc (db.products.filter (matchesQuery q))).drop
            ((pg - 1) * lim).toNat).take lim.toNat ∧
        r.products.length ≤ lim.toNat ∧
        List.Pairwise (fun a b => b.createdAt ≤ a.createdAt) r.products ∧
        r.pagination.total = (db.products.filter (matchesQuery q)).length ∧
        r.pagination.current = pg ∧
        r.pagination.pages = ceilDiv r.pagination.total lim.toNat ∧
        r.pagination.total ≤ r.pagination.pages * lim.toNat ∧
        (∀ m : Nat, r.pagination.total ≤ m * lim.toNat → r.pagination.pages ≤ m) ∧
        r.pagination.hasNext = decide (pg < (r.pagination.pages : Int)) ∧
        r.pagination.hasPrev = decide (1 < pg)) := by
  constructor
  · intro db c mn mx se
    rfl
  · intro db q pg lim r hpg hlim h1 h2 hok
    rw [getProducts_eq db q pg lim hpg hlim h1 h2] at hok
    have hr := PResp.okList.inj hok
    rw [← hr]
    have hlim1 : 1 ≤ lim.toNat := by omega
    refine ⟨rfl, ?_, ?_, rfl, rfl, rfl, ?_, ?_, rfl, rfl⟩
    · simp [List.length_take]
    · exact List.Pairwise.sublist
        ((List.take_sublist _ _).trans (List.drop_sublist _ _))
        (pairwise_sortByCreatedAtDesc _)
    · exact le_ceilDiv_mul _ _ hlim1
    · intro m hm
      exact ceilDiv_le _ _ _ hlim1 hm

end MyShop
